import Mathlib

/-!
Verification of the strom-sense backend: a shallow embedding of the
metrics calculator (`src/ocr/service.py`), the peer-statistics engine
(`src/PeerStatistics/service.py`), the weather adjustment engine
(`src/weather/service.py`), the three-detector anomaly pipeline
(`src/AnomalyDetection/service.py`) and the invoice field extraction entry
points (`energy-bill-ocr/services/parser_patterns.py`).

Python floats are modelled as rationals (`ℚ`); Python's `round(x, n)`
(round-half-to-even) is modelled exactly on rationals by `pyRound`/`roundTo`.
Database queries (`.first()` on an ordered result set) are modelled as
`List.find?` over the row lists of a `DB` record; commits are explicit
state passing.  Python exceptions are modelled with `Except PyErr`.
-/

namespace StromSense

/-- Python's `round` to an integer: round half to even (banker's rounding). -/
def pyRound (q : ℚ) : ℤ :=
  if q - ⌊q⌋ < 1/2 then ⌊q⌋
  else if 1/2 < q - ⌊q⌋ then ⌊q⌋ + 1
  else if Even ⌊q⌋ then ⌊q⌋ else ⌊q⌋ + 1

/-- Python's `round(q, n)` for rationals. -/
def roundTo (n : ℕ) (q : ℚ) : ℚ := (pyRound (q * 10 ^ n) : ℚ) / 10 ^ n

/-- `round(q, 1)`. -/
def round1 (q : ℚ) : ℚ := roundTo 1 q

/-- `round(q, 2)`. -/
def round2 (q : ℚ) : ℚ := roundTo 2 q

/-- `round(q, 3)`. -/
def round3 (q : ℚ) : ℚ := roundTo 3 q

/-- `round(q, 4)`. -/
def round4 (q : ℚ) : ℚ := roundTo 4 q

theorem pyRound_intCast (n : ℤ) : pyRound (n : ℚ) = n := by
  unfold pyRound
  norm_num [Int.floor_intCast]

theorem floor_le_pyRound (q : ℚ) : ⌊q⌋ ≤ pyRound q := by
  unfold pyRound
  split_ifs <;> omega

theorem pyRound_le_floor_add_one (q : ℚ) : pyRound q ≤ ⌊q⌋ + 1 := by
  unfold pyRound
  split_ifs <;> omega

theorem pyRound_mono {a b : ℚ} (h : a ≤ b) : pyRound a ≤ pyRound b := by
  rcases lt_or_le ⌊a⌋ ⌊b⌋ with hf | hf
  · calc pyRound a ≤ ⌊a⌋ + 1 := pyRound_le_floor_add_one a
      _ ≤ ⌊b⌋ := by omega
      _ ≤ pyRound b := floor_le_pyRound b
  · have hfe : ⌊a⌋ = ⌊b⌋ := le_antisymm (Int.floor_le_floor h) hf
    have hr : a - (⌊a⌋ : ℚ) ≤ b - (⌊b⌋ : ℚ) := by
      rw [← hfe]; linarith
    unfold pyRound
    rw [hfe] at hr ⊢
    split_ifs <;> first | omega | linarith

theorem roundTo_mono (n : ℕ) {a b : ℚ} (h : a ≤ b) : roundTo n a ≤ roundTo n b := by
  unfold roundTo
  have hp : (0 : ℚ) < 10 ^ n := by positivity
  have := pyRound_mono (mul_le_mul_of_nonneg_right h (le_of_lt hp))
  exact div_le_div_of_nonneg_right (by exact_mod_cast this) hp.le

theorem round2_mono {a b : ℚ} (h : a ≤ b) : round2 a ≤ round2 b := roundTo_mono 2 h

theorem roundTo_intCast (n : ℕ) (m : ℤ) : roundTo n (m : ℚ) = m := by
  unfold roundTo
  have : ((m : ℚ) * 10 ^ n) = ((m * 10 ^ n : ℤ) : ℚ) := by push_cast; ring
  rw [this, pyRound_intCast]
  push_cast
  field_simp

theorem round2_zero : round2 0 = 0 := by
  simpa using roundTo_intCast 2 0

theorem round2_ten : round2 10 = 10 := by
  simpa using roundTo_intCast 2 10

theorem roundTo_eq_of_lt (k : ℕ) (q : ℚ) (n : ℤ) (h1 : (n : ℚ) ≤ q * 10 ^ k)
    (h2 : q * 10 ^ k < (n : ℚ) + 1 / 2) : roundTo k q = (n : ℚ) / 10 ^ k := by
  have hf : ⌊q * 10 ^ k⌋ = n := by
    rw [Int.floor_eq_iff]
    exact ⟨h1, by linarith⟩
  unfold roundTo pyRound
  rw [hf, if_pos (by linarith)]

theorem roundTo_eq_of_gt (k : ℕ) (q : ℚ) (n : ℤ) (h1 : (n : ℚ) + 1 / 2 < q * 10 ^ k)
    (h2 : q * 10 ^ k < (n : ℚ) + 1) : roundTo k q = ((n : ℚ) + 1) / 10 ^ k := by
  have hf : ⌊q * 10 ^ k⌋ = n := by
    rw [Int.floor_eq_iff]
    exact ⟨by linarith, by linarith⟩
  unfold roundTo pyRound
  rw [hf, if_neg (by linarith), if_pos (by linarith)]
  push_cast
  ring

theorem roundTo_eq_half_even (k : ℕ) (q : ℚ) (n : ℤ) (h : q * 10 ^ k = (n : ℚ) + 1 / 2)
    (hev : n % 2 = 0) : roundTo k q = (n : ℚ) / 10 ^ k := by
  have hf : ⌊q * 10 ^ k⌋ = n := by
    rw [Int.floor_eq_iff]
    constructor <;> linarith
  unfold roundTo pyRound
  rw [hf, if_neg (by rw [h]; linarith), if_neg (by rw [h]; linarith),
    if_pos (Int.even_iff.mpr hev)]

theorem roundTo_eq_half_odd (k : ℕ) (q : ℚ) (n : ℤ) (h : q * 10 ^ k = (n : ℚ) + 1 / 2)
    (hodd : n % 2 = 1) : roundTo k q = ((n : ℚ) + 1) / 10 ^ k := by
  have hf : ⌊q * 10 ^ k⌋ = n := by
    rw [Int.floor_eq_iff]
    constructor <;> linarith
  unfold roundTo pyRound
  rw [hf, if_neg (by rw [h]; linarith), if_neg (by rw [h]; linarith),
    if_neg (by rw [Int.even_iff, hodd]; norm_num)]
  push_cast
  ring

/-! ## Data model (`src/entities/db_models.py`, fields used by the services) -/

/-- A row of `user_bills`.  Billing dates are modelled as absolute day
numbers, so `end - start` is the `timedelta.days` of the source. -/
structure UserBill where
  id : ℕ
  user_id : ℕ
  bill_year : ℤ
  consumption_kwh : ℚ
  total_cost_euros : ℚ
  billing_start_date : ℤ
  billing_end_date : ℤ
  tariff_rate : Option ℚ
deriving DecidableEq, Repr

/-- A row of `bill_metrics`. -/
structure BillMetrics where
  bill_id : ℕ
  days_in_billing_period : ℤ
  daily_avg_consumption_kwh : ℚ
  cost_per_kwh : ℚ
  yoy_consumption_change_percent : Option ℚ
  previous_year_consumption_kwh : Option ℚ
deriving DecidableEq, Repr

/-- A row of `user_profiles` (fields used by the peer and weather paths). -/
structure UserProfile where
  user_id : ℕ
  household_size : ℕ
  property_type : Option String
  postal_code : String
deriving DecidableEq, Repr

/-- A row of `peer_statistics`. -/
structure PeerStatistics where
  household_size : ℕ
  property_type : Option String
  year : ℤ
  sample_size : ℕ
  avg_consumption_kwh : ℚ
  std_dev_consumption_kwh : ℚ
  median_consumption_kwh : ℚ
  percentile_25_kwh : ℚ
  percentile_75_kwh : ℚ
  avg_cost_euros : Option ℚ
  avg_cost_per_kwh : Option ℚ
deriving DecidableEq, Repr

/-- A row of `weather_cache`. -/
structure WeatherCache where
  postal_code : String
  year : ℤ
  heating_degree_days : ℚ
  average_temperature_celsius : Option ℚ
deriving DecidableEq, Repr

/-- The relational store.  Each list is a table; `query(...).first()` is
`List.find?` over the table in row order. -/
structure DB where
  bills : List UserBill
  metrics : List BillMetrics
  profiles : List UserProfile
  peer_stats : List PeerStatistics
  weather_cache : List WeatherCache
deriving DecidableEq, Repr

/-- Python exceptions that the modelled code paths can raise. -/
inductive PyErr
  | typeError
  | zeroDivisionError
  | attributeError
  | keyError
deriving DecidableEq, Repr

/-- Replace the first list entry satisfying `p` by `f` of it (the ORM
`query(...).first()`-then-mutate upsert pattern). -/
def updateFirst {α : Type} (p : α → Bool) (f : α → α) : List α → List α
  | [] => []
  | x :: xs => if p x then f x :: xs else x :: updateFirst p f xs

/-! ## Weather service (`src/weather/service.py`) -/

/-- What `get_heating_degree_days` can hand back: a bare float (cache hit),
the `{"hdd": ..., "avg_temp": ...}` dict (fresh successful fetch), or
Python `None` (fetch failed / unavailable). -/
inductive HDDResult
  | num (hdd : ℚ)
  | dict (hdd : ℚ) (avg_temp : Option ℚ)
  | missing
deriving DecidableEq, Repr

/-- The Open-Meteo client `_fetch_from_api`, abstracted as an oracle:
`some (hdd, avg_temp)` models a response whose HDD was computed (`avg_temp`
is `none` exactly when the returned temperature list was empty), `none`
models `(None, None)` (request failure / missing data). -/
structure FetchOracle where
  fetch : String → ℤ → Option (ℚ × Option ℚ)

/-- `WeatherService._get_from_cache`. -/
def get_from_cache (db : DB) (postal_code : String) (year : ℤ) : Option WeatherCache :=
  db.weather_cache.find? fun c => c.postal_code == postal_code && c.year == year

/-- `WeatherService._save_to_cache` (upsert keyed by postal code and year). -/
def save_to_cache (db : DB) (postal_code : String) (year : ℤ) (hdd : ℚ)
    (avg_temp : Option ℚ) : DB :=
  match get_from_cache db postal_code year with
  | some _ =>
    let wc := updateFirst (fun c => c.postal_code == postal_code && c.year == year)
      (fun c => { c with heating_degree_days := hdd, average_temperature_celsius := avg_temp })
      db.weather_cache
    { db with weather_cache := wc }
  | none =>
    { db with weather_cache := db.weather_cache ++ [⟨postal_code, year, hdd, avg_temp⟩] }

/-- `WeatherService.get_heating_degree_days`.  A cache hit returns the bare
number; a successful fresh fetch caches and returns the dict; a failed fetch
returns `None`.  When the fetched `avg_temp` is `None`, the success `print`
(`f"... {avg_temp:.1f}°C"`) raises `TypeError`, which the surrounding
`except Exception` turns into `None` — after the cache write. -/
def get_heating_degree_days (o : FetchOracle) (db : DB) (postal_code : String)
    (year : ℤ) (force_refresh : Bool := false) : HDDResult × DB :=
  match (if force_refresh then none else get_from_cache db postal_code year) with
  | some cached => (.num cached.heating_degree_days, db)
  | none =>
    match o.fetch postal_code year with
    | some (hdd, avg_temp) =>
      let db' := save_to_cache db postal_code year hdd avg_temp
      match avg_temp with
      | some _ => (.dict hdd avg_temp, db')
      | none => (.missing, db')
    | none => (.missing, db)

/-- `WeatherService.calculate_weather_adjustment_factor`.  Mirrors the
Python evaluation order: the `is None` checks see the dict as non-`None`,
`previous_hdd == 0` is `False` for a dict, and the division raises
`TypeError` whenever a dict is involved. -/
def calculate_weather_adjustment_factor (o : FetchOracle) (db : DB)
    (postal_code : String) (current_year previous_year : ℤ) :
    Except PyErr (Option ℚ) × DB :=
  let (current_hdd, db1) := get_heating_degree_days o db postal_code current_year
  let (previous_hdd, db2) := get_heating_degree_days o db1 postal_code previous_year
  match current_hdd, previous_hdd with
  | .missing, _ => (.ok none, db2)
  | _, .missing => (.ok none, db2)
  | .num c, .num p =>
    if p = 0 then (.ok none, db2) else (.ok (some (round3 (c / p))), db2)
  | .dict _ _, .num p =>
    if p = 0 then (.ok none, db2) else (.error .typeError, db2)
  | .num _, .dict _ _ => (.error .typeError, db2)
  | .dict _ _, .dict _ _ => (.error .typeError, db2)

/-- `WeatherService.get_expected_consumption_with_weather`. -/
def get_expected_consumption_with_weather (o : FetchOracle) (db : DB)
    (baseline_consumption : ℚ) (postal_code : String)
    (baseline_year target_year : ℤ) : Except PyErr (Option ℚ) × DB :=
  match calculate_weather_adjustment_factor o db postal_code target_year baseline_year with
  | (.error e, db') => (.error e, db')
  | (.ok none, db') => (.ok none, db')
  | (.ok (some factor), db') => (.ok (some (round2 (baseline_consumption * factor))), db')

/-! ## Metrics service (`src/ocr/service.py`) -/

/-- `MetricsService.calculate_for_bill`.  Returns the stored `BillMetrics`
row and the updated store.  Note the source's truthiness guards:
`round(yoy_change, 2) if yoy_change else None` maps a change of exactly 0
(and `None`) to `NULL`, and likewise for `previous_year_consumption_kwh`. -/
def calculate_for_bill (db : DB) (bill_id : ℕ) : Option BillMetrics × DB :=
  match db.bills.find? (fun b => b.id == bill_id) with
  | none => (none, db)
  | some bill =>
    let days : ℤ := bill.billing_end_date - bill.billing_start_date
    let daily_avg : ℚ := if days > 0 then bill.consumption_kwh / (days : ℚ) else 0
    let cost_per_kwh : ℚ :=
      if bill.consumption_kwh > 0 then bill.total_cost_euros / bill.consumption_kwh else 0
    let previous_bill := db.bills.find? fun b =>
      b.user_id == bill.user_id && b.bill_year == bill.bill_year - 1
    let prev_consumption : Option ℚ := previous_bill.map (·.consumption_kwh)
    let yoy_change : Option ℚ :=
      match previous_bill with
      | none => none
      | some pb =>
        if pb.consumption_kwh > 0
        then some ((bill.consumption_kwh - pb.consumption_kwh) / pb.consumption_kwh * 100)
        else none
    let m : BillMetrics :=
      { bill_id := bill_id
        days_in_billing_period := days
        daily_avg_consumption_kwh := round2 daily_avg
        cost_per_kwh := round4 cost_per_kwh
        yoy_consumption_change_percent :=
          match yoy_change with
          | some v => if v ≠ 0 then some (round2 v) else none
          | none => none
        previous_year_consumption_kwh :=
          match prev_consumption with
          | some v => if v ≠ 0 then some (round2 v) else none
          | none => none }
    let db' : DB :=
      match db.metrics.find? (fun x => x.bill_id == bill_id) with
      | some _ =>
        { db with metrics := updateFirst (fun x => x.bill_id == bill_id) (fun _ => m) db.metrics }
      | none => { db with metrics := db.metrics ++ [m] }
    (some m, db')

/-! ## Peer statistics service (`src/PeerStatistics/service.py`) -/

/-- Mean of a list (`statistics.mean`). -/
def listMean (l : List ℚ) : ℚ := l.sum / (l.length : ℚ)

/-- The radicand of `statistics.stdev`: sample variance with Bessel's
correction (denominator `n - 1`). -/
def sampleVariance (l : List ℚ) : ℚ :=
  (l.map fun x => (x - listMean l) ^ 2).sum / ((l.length : ℚ) - 1)

/-- `statistics.median`: middle element of the sorted list, or the average
of the two middle elements for an even count. -/
def listMedian (l : List ℚ) : ℚ :=
  let s := l.insertionSort (· ≤ ·)
  let n := s.length
  if n % 2 = 1 then s.getD (n / 2) 0
  else (s.getD (n / 2 - 1) 0 + s.getD (n / 2) 0) / 2

/-- The cohort query of `calculate_peer_statistics`: bills joined to a
profile with the given household size (and property type when the filter
argument is truthy — Python's `if property_type:` skips both `None` and
`""`) in the given year. -/
def cohort_bills (db : DB) (household_size : ℕ) (property_type : Option String)
    (year : ℤ) : List UserBill :=
  db.bills.filter fun b =>
    b.bill_year == year &&
    db.profiles.any fun p =>
      p.user_id == b.user_id && p.household_size == household_size &&
      (match property_type with
       | none => true
       | some t => if t = "" then true else p.property_type == some t)

/-- `PeerService.calculate_peer_statistics`.  `statistics.stdev`'s square
root is abstracted as the oracle `sqrtQ` (floating-point `sqrt` has no
exact rational counterpart); everything else is exact.  Returns `none`
without touching the store when the cohort has fewer than
`min_sample_size` bills. -/
def calculate_peer_statistics (sqrtQ : ℚ → ℚ) (db : DB) (household_size : ℕ)
    (property_type : Option String) (year : ℤ) (min_sample_size : ℕ := 3) :
    Option PeerStatistics × DB :=
  let bills := cohort_bills db household_size property_type year
  if bills.length < min_sample_size then (none, db)
  else
    let consumptions := bills.map (·.consumption_kwh)
    let costs := bills.map (·.total_cost_euros)
    let avg_consumption := listMean consumptions
    let std_dev := if consumptions.length > 1 then sqrtQ (sampleVariance consumptions) else 0
    let sorted_consumptions := consumptions.insertionSort (· ≤ ·)
    let percentile_25 := sorted_consumptions.getD (sorted_consumptions.length / 4) 0
    let percentile_75 := sorted_consumptions.getD ((sorted_consumptions.length * 3) / 4) 0
    let avg_cost : Option ℚ := if costs.isEmpty then none else some (listMean costs)
    let avg_cost_per_kwh : Option ℚ :=
      if consumptions.sum > 0 then some (costs.sum / consumptions.sum) else none
    let stats : PeerStatistics :=
      { household_size := household_size
        property_type := property_type
        year := year
        sample_size := bills.length
        avg_consumption_kwh := round2 avg_consumption
        std_dev_consumption_kwh := round2 std_dev
        median_consumption_kwh := round2 (listMedian consumptions)
        percentile_25_kwh := round2 percentile_25
        percentile_75_kwh := round2 percentile_75
        avg_cost_euros :=
          match avg_cost with
          | some v => if v ≠ 0 then some (round2 v) else none
          | none => none
        avg_cost_per_kwh :=
          match avg_cost_per_kwh with
          | some v => if v ≠ 0 then some (round4 v) else none
          | none => none }
    let db' : DB :=
      match db.peer_stats.find? (fun s =>
          s.household_size == household_size && s.property_type == property_type &&
          s.year == year) with
      | some _ =>
        let ps := updateFirst (fun s =>
            s.household_size == household_size && s.property_type == property_type &&
            s.year == year) (fun _ => stats) db.peer_stats
        { db with peer_stats := ps }
      | none => { db with peer_stats := db.peer_stats ++ [stats] }
    (some stats, db')

/-- `PeerService.get_peer_statistics`. -/
def get_peer_statistics (db : DB) (household_size : ℕ) (property_type : Option String)
    (year : ℤ) : Option PeerStatistics :=
  db.peer_stats.find? fun s =>
    s.household_size == household_size && s.property_type == property_type && s.year == year

/-- The comparison dict built by `compare_to_peers`. -/
structure PeerComparison where
  user_consumption_kwh : ℚ
  peer_avg_kwh : ℚ
  peer_median_kwh : ℚ
  peer_std_dev_kwh : ℚ
  difference_kwh : ℚ
  percent_difference : ℚ
  z_score : ℚ
  percentile : String
  classification : String
  peer_group_household_size : ℕ
  peer_group_property_type : String
  peer_group_sample_size : ℕ
deriving DecidableEq, Repr

/-- `PeerService.compare_to_peers`.  Missing profile, bill or cohort rows
give `None`; a stored cohort average of 0 makes
`(user − avg) / avg * 100` raise `ZeroDivisionError`. -/
def compare_to_peers (db : DB) (user_id : ℕ) (bill_year : ℤ) :
    Except PyErr (Option PeerComparison) :=
  match db.profiles.find? (fun p => p.user_id == user_id) with
  | none => .ok none
  | some user =>
    match db.bills.find? (fun b => b.user_id == user_id && b.bill_year == bill_year) with
    | none => .ok none
    | some bill =>
      let peer_stats :=
        match get_peer_statistics db user.household_size user.property_type bill_year with
        | some s => some s
        | none => get_peer_statistics db user.household_size none bill_year
      match peer_stats with
      | none => .ok none
      | some ps =>
        let user_consumption := bill.consumption_kwh
        let peer_avg := ps.avg_consumption_kwh
        let peer_std_dev := ps.std_dev_consumption_kwh
        let z_score := if peer_std_dev > 0 then (user_consumption - peer_avg) / peer_std_dev else 0
        if peer_avg = 0 then .error .zeroDivisionError
        else
          let percent_diff := (user_consumption - peer_avg) / peer_avg * 100
          let percentile :=
            if user_consumption ≤ ps.percentile_25_kwh then "bottom 25%"
            else if user_consumption ≥ ps.percentile_75_kwh then "top 25%"
            else "middle 50%"
          let classification :=
            if |z_score| ≤ 1 then "normal"
            else if |z_score| ≤ 2 then "moderate_outlier"
            else "significant_outlier"
          .ok (some
            { user_consumption_kwh := user_consumption
              peer_avg_kwh := peer_avg
              peer_median_kwh := ps.median_consumption_kwh
              peer_std_dev_kwh := peer_std_dev
              difference_kwh := user_consumption - peer_avg
              percent_difference := round1 percent_diff
              z_score := round2 z_score
              percentile := percentile
              classification := classification
              peer_group_household_size := ps.household_size
              peer_group_property_type :=
                match ps.property_type with
                | none => "all"
                | some t => if t = "" then "all" else t
              peer_group_sample_size := ps.sample_size })

/-- `PeerService.calculate_peer_score`. -/
def calculate_peer_score (user_consumption peer_avg peer_std_dev : ℚ) : ℚ :=
  if peer_std_dev = 0 then 0
  else
    let z_score := |(user_consumption - peer_avg) / peer_std_dev|
    let score :=
      if z_score ≤ 1 then z_score * 3
      else if z_score ≤ 2 then 3 + (z_score - 1) * 4
      else if z_score ≤ 3 then 7 + (z_score - 2) * 3
      else 10
    round2 (min score 10)

/-! ## Anomaly detection service (`src/AnomalyDetection/service.py`)

The detectors return dicts; the sentinel ("no data") dicts carry only
`has_anomaly`/`score`/`reason`/`message`, so the data-only keys are
`Option`s that are `none` exactly on the sentinel.  The explanation /
recommendation strings are presentation-only and are not modelled, except
that `_generate_historical_explanation`'s `f"{previous:,.0f}"` raises
`TypeError` when the stored previous-year consumption is `NULL`. -/

/-- Result dict of `detect_historical_anomaly`. -/
structure HistResult where
  has_anomaly : Bool
  score : ℚ
  reason : Option String
  anomaly_type : Option String
  yoy_change_percent : Option ℚ
  current_consumption : Option ℚ
  previous_consumption : Option ℚ
deriving DecidableEq, Repr

/-- Result dict of `detect_peer_anomaly`. -/
structure PeerResult where
  has_anomaly : Bool
  score : ℚ
  reason : Option String
  anomaly_type : Option String
  z_score : Option ℚ
  user_consumption : Option ℚ
  peer_average : Option ℚ
  percent_difference : Option ℚ
  percentile : Option String
  peer_group_size : Option ℕ
deriving DecidableEq, Repr

/-- Result dict of `detect_predictive_anomaly`. -/
structure PredResult where
  has_anomaly : Bool
  score : ℚ
  reason : Option String
  anomaly_type : Option String
  actual_consumption : Option ℚ
  expected_consumption : Option ℚ
  deviation_kwh : Option ℚ
  deviation_percent : Option ℚ
deriving DecidableEq, Repr

/-- `AnomalyDetectionService._calculate_historical_score`. -/
def calculate_historical_score (yoy_change_percent : ℚ) : ℚ :=
  let abs_change := |yoy_change_percent|
  let score :=
    if abs_change < 10 then abs_change / 10 * 2
    else if abs_change < 20 then 3 + (abs_change - 10) / 10 * 2
    else if abs_change < 30 then 6 + (abs_change - 20) / 10 * 1
    else if abs_change < 40 then 8 + (abs_change - 30) / 10 * 1
    else 10
  round2 score

/-- `AnomalyDetectionService._classify_historical_anomaly`. -/
def classify_historical_anomaly (yoy_change_percent : ℚ) : String :=
  if |yoy_change_percent| < 15 then "normal"
  else if yoy_change_percent > 30 then "consumption_spike"
  else if yoy_change_percent < -30 then "consumption_drop"
  else if yoy_change_percent > 15 then "moderate_increase"
  else "moderate_decrease"

/-- The `no_historical_data` sentinel dict. -/
def histSentinel : HistResult :=
  ⟨false, 0, some "no_historical_data", none, none, none, none⟩

/-- `AnomalyDetectionService.detect_historical_anomaly`. -/
def detect_historical_anomaly (db : DB) (bill_id : ℕ) :
    Except PyErr (Option HistResult) :=
  match db.bills.find? (fun b => b.id == bill_id) with
  | none => .ok none
  | some bill =>
    match db.metrics.find? (fun m => m.bill_id == bill_id) with
    | none => .ok (some histSentinel)
    | some metrics =>
      match metrics.yoy_consumption_change_percent with
      | none => .ok (some histSentinel)
      | some yoy_change =>
        let score := calculate_historical_score yoy_change
        match metrics.previous_year_consumption_kwh with
        | none => .error .typeError
        | some prev =>
          .ok (some
            { has_anomaly := decide (score ≥ 5)
              score := score
              reason := none
              anomaly_type := some (classify_historical_anomaly yoy_change)
              yoy_change_percent := some yoy_change
              current_consumption := some bill.consumption_kwh
              previous_consumption := some prev })

/-- The `no_peer_data` sentinel dict. -/
def peerSentinel : PeerResult :=
  ⟨false, 0, some "no_peer_data", none, none, none, none, none, none, none⟩

/-- `AnomalyDetectionService.detect_peer_anomaly`. -/
def detect_peer_anomaly (db : DB) (bill_id : ℕ) :
    Except PyErr (Option PeerResult) :=
  match db.bills.find? (fun b => b.id == bill_id) with
  | none => .ok none
  | some bill =>
    match compare_to_peers db bill.user_id bill.bill_year with
    | .error e => .error e
    | .ok none => .ok (some peerSentinel)
    | .ok (some comparison) =>
      let score := calculate_peer_score comparison.user_consumption_kwh
        comparison.peer_avg_kwh comparison.peer_std_dev_kwh
      let z_score := comparison.z_score
      let anomaly_type :=
        if z_score > 2 then "peer_outlier_high"
        else if z_score < -2 then "peer_outlier_low"
        else if z_score > 1 then "above_peer_average"
        else "normal"
      .ok (some
        { has_anomaly := decide (score ≥ 5)
          score := score
          reason := none
          anomaly_type := some anomaly_type
          z_score := some z_score
          user_consumption := some comparison.user_consumption_kwh
          peer_average := some comparison.peer_avg_kwh
          percent_difference := some comparison.percent_difference
          percentile := some comparison.percentile
          peer_group_size := some comparison.peer_group_sample_size })

/-- `AnomalyDetectionService._calculate_predictive_score`. -/
def calculate_predictive_score (deviation_percent : ℚ) : ℚ :=
  let abs_dev := |deviation_percent|
  let score :=
    if abs_dev < 15 then abs_dev / 15 * 3
    else if abs_dev < 25 then 4 + (abs_dev - 15) / 10 * 2
    else if abs_dev < 40 then 7 + (abs_dev - 25) / 15 * 2
    else 10
  round2 score

/-- The `no_baseline_data` sentinel dict. -/
def baselineSentinel : PredResult :=
  ⟨false, 0, some "no_baseline_data", none, none, none, none, none⟩

/-- The `no_weather_data` sentinel dict. -/
def weatherSentinel : PredResult :=
  ⟨false, 0, some "no_weather_data", none, none, none, none, none⟩

/-- `AnomalyDetectionService.detect_predictive_anomaly`.  The user profile
is fetched before the previous-year bill but only dereferenced
(`user.postal_code`) after the baseline check, so a missing profile raises
`AttributeError` only when a previous-year bill exists.  A weather-adjusted
expectation of exactly 0 makes the deviation ratio raise
`ZeroDivisionError`. -/
def detect_predictive_anomaly (o : FetchOracle) (db : DB) (bill_id : ℕ) :
    Except PyErr (Option PredResult × DB) :=
  match db.bills.find? (fun b => b.id == bill_id) with
  | none => .ok (none, db)
  | some bill =>
    let user? := db.profiles.find? (fun p => p.user_id == bill.user_id)
    match db.bills.find? (fun b =>
        b.user_id == bill.user_id && b.bill_year == bill.bill_year - 1) with
    | none => .ok (some baselineSentinel, db)
    | some previous_bill =>
      match user? with
      | none => .error .attributeError
      | some user =>
        match get_expected_consumption_with_weather o db previous_bill.consumption_kwh
            user.postal_code previous_bill.bill_year bill.bill_year with
        | (.error e, _) => .error e
        | (.ok none, db') => .ok (some weatherSentinel, db')
        | (.ok (some expected), db') =>
          if expected = 0 then .error .zeroDivisionError
          else
            let actual := bill.consumption_kwh
            let deviation_kwh := actual - expected
            let deviation_percent := deviation_kwh / expected * 100
            let score := calculate_predictive_score deviation_percent
            let anomaly_type :=
              if |deviation_percent| < 15 then "normal"
              else if deviation_percent > 25 then "unexplained_spike"
              else if deviation_percent < -25 then "unexplained_drop"
              else "moderate_deviation"
            .ok (some
              { has_anomaly := decide (score ≥ 5)
                score := score
                reason := none
                anomaly_type := some anomaly_type
                actual_consumption := some actual
                expected_consumption := some expected
                deviation_kwh := some (round2 deviation_kwh)
                deviation_percent := some (round2 deviation_percent) }, db')

/-- Python's `max(scores, key=lambda x: x[0])`: the first element of
maximal score wins (later elements replace the best only on a strictly
greater score). -/
def maxByScore (first : ℚ × String) (rest : List (ℚ × String)) : ℚ × String :=
  rest.foldl (fun best x => if x.1 > best.1 then x else best) first

/-- `AnomalyDetectionService._determine_primary_anomaly_type`.  Mirrors the
source exactly: the historical entry's type is
`historical['anomaly_type'] if historical["has_anomaly"] == True else 'normal'`
(a `None` historical dict raises `TypeError`, a data dict without the key
would raise `KeyError`), while the peer and predictive entries use
`.get('anomaly_type', 'normal')` guarded on `if historical` — not on their
own dicts — so a `None` peer/predictive dict raises `AttributeError`. -/
def determine_primary_anomaly_type (historical : Option HistResult)
    (peer : Option PeerResult) (predictive : Option PredResult) :
    Except PyErr String :=
  match historical with
  | none => .error .typeError
  | some hr =>
    let t1? : Except PyErr String :=
      if hr.has_anomaly then
        match hr.anomaly_type with
        | some t => .ok t
        | none => .error .keyError
      else .ok "normal"
    match t1? with
    | .error e => .error e
    | .ok t1 =>
      match peer with
      | none => .error .attributeError
      | some pp =>
        match predictive with
        | none => .error .attributeError
        | some pd =>
          let best := maxByScore (hr.score, t1)
            [(pp.score, pp.anomaly_type.getD "normal"),
             (pd.score, pd.anomaly_type.getD "normal")]
          .ok (if best.1 ≥ 4 then best.2 else "normal")

/-- `AnomalyDetectionService._calculate_financial_impact`.  All the `if`s
are Python truthiness tests, so a tariff rate, deviation or consumption of
exactly 0 behaves like an absent value. -/
def calculate_financial_impact (bill : UserBill) (historical : Option HistResult)
    (predictive : Option PredResult) : Option ℚ :=
  match bill.tariff_rate with
  | none => none
  | some rate =>
    if rate = 0 then none
    else
      let historical_extra : ℚ :=
        match historical with
        | some hr =>
          match hr.current_consumption, hr.previous_consumption with
          | some c, some p => if c ≠ 0 ∧ p ≠ 0 then max 0 (c - p) else 0
          | _, _ => 0
        | none => 0
      let extra_kwh : ℚ :=
        match predictive with
        | some pr =>
          match pr.deviation_kwh with
          | some d => if d ≠ 0 then max 0 d else historical_extra
          | none => historical_extra
        | none => historical_extra
      if extra_kwh > 0 then some (round2 (extra_kwh * rate)) else none

/-- The combined result dict of `detect_all_anomalies` (explanation and
recommendation strings are presentation-only and not modelled). -/
structure AllResult where
  bill_id : ℕ
  user_id : ℕ
  bill_year : ℤ
  has_anomaly : Bool
  severity : String
  combined_score : ℚ
  primary_anomaly_type : String
  hist_score : ℚ
  peer_score : ℚ
  pred_score : ℚ
  historical : Option HistResult
  peer : Option PeerResult
  predictive : Option PredResult
  estimated_extra_cost_euros : Option ℚ
deriving DecidableEq, Repr

/-- `AnomalyDetectionService.detect_all_anomalies`. -/
def detect_all_anomalies (o : FetchOracle) (db : DB) (bill_id : ℕ) :
    Except PyErr (Option AllResult × DB) :=
  match db.bills.find? (fun b => b.id == bill_id) with
  | none => .ok (none, db)
  | some bill =>
    match detect_historical_anomaly db bill_id with
    | .error e => .error e
    | .ok historical =>
      match detect_peer_anomaly db bill_id with
      | .error e => .error e
      | .ok peer =>
        match detect_predictive_anomaly o db bill_id with
        | .error e => .error e
        | .ok (predictive, db1) =>
          let hist_score := (historical.map (·.score)).getD 0
          let peer_score := (peer.map (·.score)).getD 0
          let pred_score := (predictive.map (·.score)).getD 0
          let combined_score :=
            round2 (hist_score * (4/10) + peer_score * (3/10) + pred_score * (3/10))
          let severity :=
            if combined_score < 4 then "normal"
            else if combined_score < 7 then "warning"
            else "critical"
          match determine_primary_anomaly_type historical peer predictive with
          | .error e => .error e
          | .ok primary_type =>
            .ok (some
              { bill_id := bill_id
                user_id := bill.user_id
                bill_year := bill.bill_year
                has_anomaly := decide (combined_score ≥ 4)
                severity := severity
                combined_score := combined_score
                primary_anomaly_type := primary_type
                hist_score := hist_score
                peer_score := peer_score
                pred_score := pred_score
                historical := historical
                peer := peer
                predictive := predictive
                estimated_extra_cost_euros :=
                  calculate_financial_impact bill historical predictive }, db1)

/-! ## Invoice field extraction (`energy-bill-ocr/services/parser_patterns.py`)

The compiled regexes and the `re` library are abstracted: each compiled
pattern is identified by its supplier table and field key, and a
`RegexEnv` oracle provides `re.search`, the two-date `re.findall` used for
`billingPeriod`, `clean_ocr_text` and the three normalizers from
`utils/parser_eon_refined.py`.  The table structure, lookup, iteration and
per-field dispatch are modelled exactly. -/

/-- Identifier of one compiled regex: the supplier table it lives in and
its field key. -/
structure PatternId where
  supplier : String
  field : String
deriving DecidableEq, Repr

/-- A `re.Match`: the whole match and the optional first capture group
(`m.group(1)` falling back to `m.group(0)` in the source's `try/except`). -/
structure MatchData where
  group0 : String
  group1 : Option String
deriving DecidableEq, Repr

/-- A normalized field value (`float`, `str` or the billing-period dict). -/
inductive FieldVal
  | num (q : ℚ)
  | str (s : String)
  | dateRange (start_date end_date : Option String)
deriving DecidableEq, Repr

/-- An entry of the `fields` dict of `parse_invoice_text`. -/
structure ExtractedField where
  raw : Option String
  normalized : Option FieldVal
  confidence : ℚ
deriving DecidableEq, Repr

/-- The `re` engine and the text utilities, as oracles. -/
structure RegexEnv where
  search : PatternId → String → Option MatchData
  findallDates : String → List String
  cleanOcrText : String → String
  normalizeAmountGerman : String → Option ℚ
  normalizeKwh : String → Option ℚ
  parseGermanDate : String → Option String

/-- The `EON_PATTERNS` table: its field keys in dict order. -/
def EON_PATTERNS : List (String × PatternId) :=
  ["supplierName", "customerId", "contractNumber", "invoiceId", "meterNumber",
   "billingPeriod", "totalConsumption", "netAmount", "totalAmount", "gutschrift",
   "nextInstallment", "issueDate"].map fun f => (f, ⟨"EON", f⟩)

/-- The `GREEN_PATTERNS` table: its field keys in dict order. -/
def GREEN_PATTERNS : List (String × PatternId) :=
  ["supplierName", "customerId", "contractNumber", "invoiceId", "meterNumber",
   "billingPeriod", "totalConsumption", "totalAmount", "issueDate"].map
    fun f => (f, ⟨"GREEN_PLANET", f⟩)

/-- `SUPPLIERS.get(supplier, {})`: the registry holds only the two known
suppliers, every other tag (including `"UNKNOWN"`) gets the empty table. -/
def SUPPLIERS (supplier : String) : List (String × PatternId) :=
  if supplier = "EON" then EON_PATTERNS
  else if supplier = "GREEN_PLANET" then GREEN_PATTERNS
  else []

/-- `detect_supplier`: first matching supplier signature wins, no match is
`UNKNOWN`. -/
def detect_supplier (env : RegexEnv) (text : String) : String :=
  if (env.search ⟨"EON", "supplierName"⟩ text).isSome then "EON"
  else if (env.search ⟨"GREEN_PLANET", "supplierName"⟩ text).isSome then "GREEN_PLANET"
  else "UNKNOWN"

/-- `score_confidence` from `utils/parser_eon_refined.py`. -/
def score_confidence (val : Option FieldVal) (supplier_specific : Bool) : ℚ :=
  match val with
  | none => 0
  | some v =>
    let base : ℚ := if supplier_specific then 92/100 else 75/100
    match v with
    | .num q => if |q| < 1/1000 then base - 2/10 else base
    | .str s => if s.trim.length < 2 then base - 3/10 else base
    | .dateRange _ _ => base

/-- The result of `parse_invoice_text`: the supplier tag and the `fields`
dict (an association list in insertion order). -/
structure ParsedInvoice where
  supplier : String
  fields : List (String × ExtractedField)
deriving DecidableEq, Repr

/-- Normalization dispatch of the `parse_invoice_text` loop body for a
matched pattern. -/
def normalize_field (env : RegexEnv) (field : String) (m : MatchData)
    (raw_match : String) : Option FieldVal :=
  if field = "totalAmount" ∨ field = "gutschrift" then
    (env.normalizeAmountGerman raw_match).map .num
  else if field = "totalConsumption" then
    (env.normalizeKwh raw_match).map .num
  else if field = "issueDate" then
    (env.parseGermanDate raw_match).map .str
  else if field = "billingPeriod" then
    match env.findallDates m.group0 with
    | g0 :: g1 :: _ => some (.dateRange (env.parseGermanDate g0) (env.parseGermanDate g1))
    | _ => none
  else some (.str raw_match)

/-- `parse_invoice_text`. -/
def parse_invoice_text (env : RegexEnv) (raw_text : String) : ParsedInvoice :=
  let text := env.cleanOcrText raw_text
  let supplier := detect_supplier env text
  let patterns := SUPPLIERS supplier
  { supplier := supplier
    fields := patterns.map fun fp =>
      match env.search fp.2 text with
      | none => (fp.1, ⟨none, none, round3 0⟩)
      | some m =>
        let raw_match := (m.group1.getD m.group0).trim
        let normalized := normalize_field env fp.1 m raw_match
        (fp.1, ⟨some raw_match, normalized,
          round3 (score_confidence normalized (supplier ≠ "UNKNOWN"))⟩) }

/-! ## Definitions transcribed from the specification's words

These are *not* translations of the source; they state the functions the
spec (and the claims derived from it) describe, for refinement comparison
with the embedded code. -/

/-- Modelled from the spec's words: the historical score as claim C4 states
it — the exact piecewise-linear function of `|Δ|` with no rounding. -/
def histScoreSpec (yoy_change_percent : ℚ) : ℚ :=
  let a := |yoy_change_percent|
  if a < 10 then a / 10 * 2
  else if a < 20 then 3 + (a - 10) / 10 * 2
  else if a < 30 then 6 + (a - 20) / 10
  else if a < 40 then 8 + (a - 30) / 10
  else 10

/-- The piecewise-linear |z-score| map of the peer score: 0→0, 1→3, 2→7,
3→10, linear in between, flat at 10 beyond. -/
def peerPiecewise (z : ℚ) : ℚ :=
  if z ≤ 1 then z * 3
  else if z ≤ 2 then 3 + (z - 1) * 4
  else if z ≤ 3 then 7 + (z - 2) * 3
  else 10

/-- Modelled from the spec's words: the peer score as claim C3 states it —
the piecewise-linear function of `|z|` capped at 10, 0 when the standard
deviation is 0, with no rounding. -/
def peerScoreSpec (user_consumption peer_avg peer_std_dev : ℚ) : ℚ :=
  if peer_std_dev = 0 then 0
  else min (peerPiecewise |(user_consumption - peer_avg) / peer_std_dev|) 10

/-! ## Shared helper lemmas -/

theorem round2_def (q : ℚ) : round2 q = roundTo 2 q := rfl

theorem round1_def (q : ℚ) : round1 q = roundTo 1 q := rfl

theorem round3_def (q : ℚ) : round3 q = roundTo 3 q := rfl

theorem round4_def (q : ℚ) : round4 q = roundTo 4 q := rfl

theorem round2_natCast (n : ℕ) : round2 (n : ℚ) = n := by
  have h := roundTo_intCast 2 (n : ℤ)
  push_cast at h
  exact h

theorem round2_eq_self_of_int (q : ℚ) (n : ℤ) (h : q = (n : ℚ)) : round2 q = q := by
  rw [h, round2_def, roundTo_intCast]

theorem peerPiecewise_mono {z1 z2 : ℚ} (h : z1 ≤ z2) :
    peerPiecewise z1 ≤ peerPiecewise z2 := by
  unfold peerPiecewise
  split_ifs <;> linarith

theorem peerPiecewise_nonneg {z : ℚ} (h : 0 ≤ z) : 0 ≤ peerPiecewise z := by
  unfold peerPiecewise
  split_ifs <;> linarith

theorem calculate_peer_score_eq (u a : ℚ) {s : ℚ} (hs : s ≠ 0) :
    calculate_peer_score u a s = round2 (min (peerPiecewise |(u - a) / s|) 10) := by
  unfold calculate_peer_score peerPiecewise
  rw [if_neg hs]

/-! ## Claim C3 — the peer score -/

/-- Claim C3, amended: `calculate_peer_score` returns 0 when the peer
standard deviation is 0, and otherwise returns the piecewise-linear map of
`|z|` (0→0, 1→3, 2→7, 3→10, linearly interpolated, capped at 10) **rounded
to two decimals** (Python banker's rounding); it is monotone non-decreasing
in `|z|`, always lies in [0, 10], and takes the claimed values on the three
examples. -/
theorem claim_C3 :
    (∀ u a : ℚ, calculate_peer_score u a 0 = 0) ∧
    (∀ u a s : ℚ, s ≠ 0 →
      calculate_peer_score u a s = round2 (min (peerPiecewise |(u - a) / s|) 10)) ∧
    (∀ u1 u2 a s : ℚ, |(u1 - a) / s| ≤ |(u2 - a) / s| →
      calculate_peer_score u1 a s ≤ calculate_peer_score u2 a s) ∧
    (∀ u a s : ℚ, 0 ≤ calculate_peer_score u a s ∧ calculate_peer_score u a s ≤ 10) ∧
    calculate_peer_score 3400 3400 600 = 0 ∧
    calculate_peer_score 4000 3400 600 = 3 ∧
    calculate_peer_score 5200 3400 600 = 10 := by
  have hzero : ∀ u a : ℚ, calculate_peer_score u a 0 = 0 := by
    intro u a
    unfold calculate_peer_score
    rw [if_pos rfl]
  have heq := fun (u a : ℚ) {s : ℚ} (hs : s ≠ 0) => calculate_peer_score_eq u a hs
  have hbounds : ∀ u a s : ℚ, 0 ≤ calculate_peer_score u a s ∧ calculate_peer_score u a s ≤ 10 := by
    intro u a s
    by_cases hs : s = 0
    · subst hs; rw [hzero]; norm_num
    · rw [heq u a hs]
      constructor
      · have h0 : (0 : ℚ) ≤ min (peerPiecewise |(u - a) / s|) 10 :=
          le_min (peerPiecewise_nonneg (abs_nonneg _)) (by norm_num)
        calc (0 : ℚ) = round2 0 := round2_zero.symm
          _ ≤ _ := round2_mono h0
      · calc round2 (min (peerPiecewise |(u - a) / s|) 10) ≤ round2 10 :=
            round2_mono (min_le_right _ _)
          _ = 10 := round2_ten
  refine ⟨hzero, fun u a s hs => heq u a hs, ?_, hbounds, ?_, ?_, ?_⟩
  · intro u1 u2 a s h
    by_cases hs : s = 0
    · subst hs; rw [hzero, hzero]
    · rw [heq u1 a hs, heq u2 a hs]
      exact round2_mono (min_le_min (peerPiecewise_mono h) le_rfl)
  · rw [calculate_peer_score_eq 3400 3400 (by norm_num : (600 : ℚ) ≠ 0)]
    norm_num [peerPiecewise]
    rw [round2_zero]
  · rw [calculate_peer_score_eq 4000 3400 (by norm_num : (600 : ℚ) ≠ 0)]
    have : |((4000 : ℚ) - 3400) / 600| = 1 := by norm_num
    rw [this]
    norm_num [peerPiecewise]
    rw [show ((3 : ℚ)) = ((3 : ℕ) : ℚ) by norm_num, round2_natCast]
  · rw [calculate_peer_score_eq 5200 3400 (by norm_num : (600 : ℚ) ≠ 0)]
    have : |((5200 : ℚ) - 3400) / 600| = 3 := by norm_num
    rw [this]
    norm_num [peerPiecewise]
    rw [round2_ten]

/-- Witness for claim C3: its universally quantified parts applied at
concrete inputs. -/
theorem claim_C3_witness :
    calculate_peer_score 4600 3400 600 = round2 (min (peerPiecewise |((4600 : ℚ) - 3400) / 600|) 10) ∧
    calculate_peer_score 4000 3400 600 ≤ calculate_peer_score 4600 3400 600 ∧
    0 ≤ calculate_peer_score 4600 3400 600 ∧ calculate_peer_score 4600 3400 600 ≤ 10 :=
  ⟨claim_C3.2.1 4600 3400 600 (by norm_num),
   claim_C3.2.2.1 4000 4600 3400 600 (by norm_num),
   (claim_C3.2.2.2.1 4600 3400 600).1,
   (claim_C3.2.2.2.1 4600 3400 600).2⟩

/-- Counterexample to claim C3 as stated: at `|z| = 1/1000` the code
returns the two-decimal rounding 0, not the interpolated value 3/1000. -/
theorem claim_C3_cex :
    calculate_peer_score (17003/5) 3400 600 = 0 ∧
    peerScoreSpec (17003/5) 3400 600 = 3/1000 ∧
    calculate_peer_score (17003/5) 3400 600 ≠ peerScoreSpec (17003/5) 3400 600 := by
  have hz : |((17003/5 : ℚ) - 3400) / 600| = 1/1000 := by norm_num
  have h1 : calculate_peer_score (17003/5) 3400 600 = 0 := by
    rw [calculate_peer_score_eq _ _ (by norm_num : (600 : ℚ) ≠ 0), hz]
    have hpw : peerPiecewise (1/1000) = 3/1000 := by norm_num [peerPiecewise]
    rw [hpw, show min (3/1000 : ℚ) 10 = 3/1000 by norm_num,
      round2_def, roundTo_eq_of_lt 2 _ 0 (by norm_num) (by norm_num)]
    norm_num
  have h2 : peerScoreSpec (17003/5) 3400 600 = 3/1000 := by
    unfold peerScoreSpec
    rw [if_neg (by norm_num : (600 : ℚ) ≠ 0), hz]
    have hpw : peerPiecewise (1/1000) = 3/1000 := by norm_num [peerPiecewise]
    rw [hpw]
    norm_num
  exact ⟨h1, h2, by rw [h1, h2]; norm_num⟩

/-! ## Claim C4 — the historical score -/

theorem calculate_historical_score_eq (yoy : ℚ) :
    calculate_historical_score yoy = round2 (histScoreSpec yoy) := by
  unfold calculate_historical_score histScoreSpec
  dsimp only
  split_ifs <;> norm_num

/-- Claim C4, amended: the historical score is the claimed piecewise-linear
function of `|Δ|` **rounded to two decimals**; a change of exactly 40%
scores exactly 10, a change of 0% scores exactly 0, and the detector's
`has_anomaly` flag is set iff the (returned, rounded) score is at least
5 — also on the no-data sentinel, whose score is 0. -/
theorem claim_C4 :
    (∀ yoy : ℚ, |yoy| < 10 → calculate_historical_score yoy = round2 (|yoy| / 10 * 2)) ∧
    (∀ yoy : ℚ, 10 ≤ |yoy| → |yoy| < 20 →
      calculate_historical_score yoy = round2 (3 + (|yoy| - 10) / 10 * 2)) ∧
    (∀ yoy : ℚ, 20 ≤ |yoy| → |yoy| < 30 →
      calculate_historical_score yoy = round2 (6 + (|yoy| - 20) / 10)) ∧
    (∀ yoy : ℚ, 30 ≤ |yoy| → |yoy| < 40 →
      calculate_historical_score yoy = round2 (8 + (|yoy| - 30) / 10)) ∧
    (∀ yoy : ℚ, 40 ≤ |yoy| → calculate_historical_score yoy = 10) ∧
    calculate_historical_score 40 = 10 ∧
    calculate_historical_score 0 = 0 ∧
    (∀ db bill_id r, detect_historical_anomaly db bill_id = .ok (some r) →
      (r.has_anomaly = true ↔ r.score ≥ 5)) := by
  have hseg : ∀ yoy : ℚ, calculate_historical_score yoy = round2 (histScoreSpec yoy) :=
    calculate_historical_score_eq
  have h40 : ∀ yoy : ℚ, 40 ≤ |yoy| → calculate_historical_score yoy = 10 := by
    intro yoy h
    rw [hseg]
    unfold histScoreSpec
    rw [if_neg (by linarith), if_neg (by linarith), if_neg (by linarith),
      if_neg (by linarith), round2_ten]
  refine ⟨?_, ?_, ?_, ?_, h40, ?_, ?_, ?_⟩
  · intro yoy h
    rw [hseg]; unfold histScoreSpec; rw [if_pos h]
  · intro yoy h1 h2
    rw [hseg]; unfold histScoreSpec
    rw [if_neg (by linarith), if_pos h2]
  · intro yoy h1 h2
    rw [hseg]; unfold histScoreSpec
    rw [if_neg (by linarith), if_neg (by linarith), if_pos h2]
  · intro yoy h1 h2
    rw [hseg]; unfold histScoreSpec
    rw [if_neg (by linarith), if_neg (by linarith), if_neg (by linarith), if_pos h2]
  · exact h40 40 (by norm_num)
  · rw [hseg]
    unfold histScoreSpec
    norm_num
    rw [round2_zero]
  · intro db bill_id r h
    unfold detect_historical_anomaly at h
    split at h
    · simp at h
    · split at h
      · simp only [Except.ok.injEq, Option.some.injEq] at h
        subst h
        simp [histSentinel]
      · split at h
        · simp only [Except.ok.injEq, Option.some.injEq] at h
          subst h
          simp [histSentinel]
        · split at h
          · simp at h
          · simp only [Except.ok.injEq, Option.some.injEq] at h
            subst h
            simp [decide_eq_true_iff]

/-- Witness for claim C4: segment formulas and the flag equivalence applied
at concrete inputs. -/
theorem claim_C4_witness :
    calculate_historical_score 16 = round2 (3 + (|(16 : ℚ)| - 10) / 10 * 2) ∧
    calculate_historical_score 45 = 10 ∧
    (detect_historical_anomaly
        ⟨[⟨1, 1, 2024, 4500, 900, 0, 365, none⟩],
         [⟨1, 365, 1233/100, 1/5, some 40, some 3200⟩], [], [], []⟩ 1 =
      .ok (some ⟨true, 10, none, some "consumption_spike", some 40, some 4500, some 3200⟩)) ∧
    (true = true ↔ (10 : ℚ) ≥ 5) := by
  refine ⟨claim_C4.2.1 16 (by norm_num) (by norm_num),
    claim_C4.2.2.2.2.1 45 (by norm_num), ?_, ?_⟩
  · have hs : calculate_historical_score 40 = 10 := claim_C4.2.2.2.2.2.1
    unfold detect_historical_anomaly
    simp [List.find?, hs, classify_historical_anomaly]
    norm_num
  · refine claim_C4.2.2.2.2.2.2.2
      ⟨[⟨1, 1, 2024, 4500, 900, 0, 365, none⟩],
       [⟨1, 365, 1233/100, 1/5, some 40, some 3200⟩], [], [], []⟩ 1
      ⟨true, 10, none, some "consumption_spike", some 40, some 4500, some 3200⟩ ?_
    have hs : calculate_historical_score 40 = 10 := claim_C4.2.2.2.2.2.1
    unfold detect_historical_anomaly
    simp [List.find?, hs, classify_historical_anomaly]
    norm_num

/-- Counterexample to claim C4 as stated: at a change of 0.005% the code
returns the two-decimal rounding 0, not the interpolated value 1/1000. -/
theorem claim_C4_cex :
    calculate_historical_score (1/200) = 0 ∧
    histScoreSpec (1/200) = 1/1000 ∧
    calculate_historical_score (1/200) ≠ histScoreSpec (1/200) := by
  have h2 : histScoreSpec (1/200) = 1/1000 := by
    have habs : |(1/200 : ℚ)| = 1/200 := abs_of_pos (by norm_num)
    unfold histScoreSpec
    dsimp only
    rw [habs, if_pos (by norm_num)]
    norm_num
  have h1 : calculate_historical_score (1/200) = 0 := by
    rw [calculate_historical_score_eq, h2, round2_def,
      roundTo_eq_of_lt 2 _ 0 (by norm_num) (by norm_num)]
    norm_num
  exact ⟨h1, h2, by rw [h1, h2]; norm_num⟩

/-! ## Claims C5 and C10 — the weather service -/

/-- A weather oracle whose fetch always succeeds with HDD 1000 and average
temperature 5 °C. -/
def oracleAlwaysFetch : FetchOracle := ⟨fun _ _ => some (1000, some 5)⟩

/-- The empty store. -/
def emptyDB : DB := ⟨[], [], [], [], []⟩

/-- Claim C5 (code bug): with an empty cache and a working weather API,
`calculate_weather_adjustment_factor` raises `TypeError`, because
`get_heating_degree_days` returns the `{"hdd": ..., "avg_temp": ...}` dict
after a fresh fetch although its own docstring declares
`Heating degree days (float) or None`, and the factor division then divides
dicts.  When both years are served from the cache, the function does return
the quotient as the claim states. -/
theorem claim_C5 :
    (calculate_weather_adjustment_factor oracleAlwaysFetch emptyDB "10115" 2024 2023).1 =
      .error .typeError ∧
    (calculate_weather_adjustment_factor oracleAlwaysFetch
        ⟨[], [], [], [], [⟨"10115", 2024, 800, some 5⟩, ⟨"10115", 2023, 1000, some 5⟩]⟩
        "10115" 2024 2023).1 = .ok (some (4/5)) := by
  constructor
  · simp [calculate_weather_adjustment_factor, get_heating_degree_days, get_from_cache,
      save_to_cache, oracleAlwaysFetch, emptyDB, List.find?]
  · have hr : round3 ((800 : ℚ) / 1000) = 4/5 := by
      rw [round3_def, roundTo_eq_of_lt 3 _ 800 (by norm_num) (by norm_num)]
      norm_num
    simp [calculate_weather_adjustment_factor, get_heating_degree_days, get_from_cache,
      save_to_cache, oracleAlwaysFetch, List.find?, hr]

/-- Claim C10: the return shape of `get_heating_degree_days` depends on the
path — the bare cached number on a cache hit, the HDD/average-temperature
dict after a successful fresh fetch, `None` on a failed fetch; so the same
inputs give differently-shaped values before and after the cache fill. -/
theorem claim_C10 :
    (∀ o db postal_code year c, get_from_cache db postal_code year = some c →
      get_heating_degree_days o db postal_code year =
        (.num c.heating_degree_days, db)) ∧
    (∀ o db postal_code year hdd avg, get_from_cache db postal_code year = none →
      o.fetch postal_code year = some (hdd, some avg) →
      get_heating_degree_days o db postal_code year =
        (.dict hdd (some avg), save_to_cache db postal_code year hdd (some avg))) ∧
    (∀ o db postal_code year, get_from_cache db postal_code year = none →
      o.fetch postal_code year = none →
      get_heating_degree_days o db postal_code year = (.missing, db)) ∧
    (get_heating_degree_days oracleAlwaysFetch emptyDB "10115" 2024).1 =
      .dict 1000 (some 5) ∧
    (get_heating_degree_days oracleAlwaysFetch
        (get_heating_degree_days oracleAlwaysFetch emptyDB "10115" 2024).2 "10115" 2024).1 =
      .num 1000 := by
  refine ⟨?_, ?_, ?_, ?_, ?_⟩
  · intro o db postal_code year c h
    simp [get_heating_degree_days, h]
  · intro o db postal_code year hdd avg h1 h2
    simp [get_heating_degree_days, h1, h2]
  · intro o db postal_code year h1 h2
    simp [get_heating_degree_days, h1, h2]
  · simp [get_heating_degree_days, get_from_cache, save_to_cache, oracleAlwaysFetch,
      emptyDB, List.find?]
  · simp [get_heating_degree_days, get_from_cache, save_to_cache, oracleAlwaysFetch,
      emptyDB, List.find?]

/-- Witness for claim C10: the three path characterizations applied at
concrete inputs. -/
theorem claim_C10_witness :
    get_heating_degree_days oracleAlwaysFetch
        ⟨[], [], [], [], [⟨"10115", 2024, 800, some 5⟩]⟩ "10115" 2024 =
      (.num 800, ⟨[], [], [], [], [⟨"10115", 2024, 800, some 5⟩]⟩) ∧
    get_heating_degree_days ⟨fun _ _ => none⟩ emptyDB "10115" 2024 = (.missing, emptyDB) ∧
    get_heating_degree_days oracleAlwaysFetch emptyDB "10115" 2024 =
      (.dict 1000 (some 5), save_to_cache emptyDB "10115" 2024 1000 (some 5)) := by
  refine ⟨?_, ?_, ?_⟩
  · exact claim_C10.1 oracleAlwaysFetch _ "10115" 2024 ⟨"10115", 2024, 800, some 5⟩
      (by simp [get_from_cache, List.find?])
  · exact claim_C10.2.2.1 ⟨fun _ _ => none⟩ emptyDB "10115" 2024
      (by simp [get_from_cache, emptyDB, List.find?]) rfl
  · exact claim_C10.2.1 oracleAlwaysFetch emptyDB "10115" 2024 1000 5
      (by simp [get_from_cache, emptyDB, List.find?]) rfl

/-! ## Claim C8 — extraction for unknown suppliers -/

/-- Claim C8, amended: text matching no supplier signature is tagged
`UNKNOWN`, and `parse_invoice_text` on such text returns the `UNKNOWN`
supplier with an **empty** fields map — `SUPPLIERS` registers no pattern
set (in particular no generic fallback set) for `UNKNOWN`, so no field key
is emitted at all; extraction still does not raise. -/
theorem claim_C8 (env : RegexEnv) (raw_text : String)
    (h1 : env.search ⟨"EON", "supplierName"⟩ (env.cleanOcrText raw_text) = none)
    (h2 : env.search ⟨"GREEN_PLANET", "supplierName"⟩ (env.cleanOcrText raw_text) = none) :
    detect_supplier env (env.cleanOcrText raw_text) = "UNKNOWN" ∧
    parse_invoice_text env raw_text = ⟨"UNKNOWN", []⟩ := by
  have hd : detect_supplier env (env.cleanOcrText raw_text) = "UNKNOWN" := by
    simp [detect_supplier, h1, h2]
  refine ⟨hd, ?_⟩
  simp [parse_invoice_text, hd, SUPPLIERS]

/-- The regex oracle under which nothing matches. -/
def envNoMatch : RegexEnv :=
  ⟨fun _ _ => none, fun _ => [], id, fun _ => none, fun _ => none, fun _ => none⟩

/-- Witness for claim C8 at a concrete environment and text. -/
theorem claim_C8_witness :
    detect_supplier envNoMatch (envNoMatch.cleanOcrText "Stadtwerke Rechnung") = "UNKNOWN" ∧
    parse_invoice_text envNoMatch "Stadtwerke Rechnung" = ⟨"UNKNOWN", []⟩ :=
  claim_C8 envNoMatch "Stadtwerke Rechnung" rfl rfl

/-- Counterexample to claim C8 as stated: on unknown-supplier text the
fields map is empty — no known field key (e.g. `totalAmount`) is present at
all, instead of every key being present with a value or `null`. -/
theorem claim_C8_cex :
    parse_invoice_text envNoMatch "Ihre Stromrechnung 2023" = ⟨"UNKNOWN", []⟩ ∧
    ¬ ∃ v, ("totalAmount", v) ∈ (parse_invoice_text envNoMatch "Ihre Stromrechnung 2023").fields := by
  have h : parse_invoice_text envNoMatch "Ihre Stromrechnung 2023" = ⟨"UNKNOWN", []⟩ := by
    simp [parse_invoice_text, detect_supplier, envNoMatch, SUPPLIERS]
  refine ⟨h, ?_⟩
  rw [h]
  simp

/-! ## Claim C6 — the stored year-over-year fields -/

/-- Claim C6, amended: the stored YoY percent change is `NULL` when no
prior-year bill exists, when the prior consumption is not positive, **and
also when the change is exactly 0** (Python's
`round(yoy_change, 2) if yoy_change else None` collapses a 0.0 change to
`None`), so equal consumption stores `NULL`, not 0; when a prior-year bill
with positive consumption exists and the change is nonzero, the stored
value is `(current − previous) / previous × 100` rounded to two decimals —
40.62 ≈ 40.625 for 4500 against 3200. -/
theorem claim_C6 :
    (∀ db bill_id bill m, db.bills.find? (fun b => b.id == bill_id) = some bill →
      (calculate_for_bill db bill_id).1 = some m →
      (db.bills.find? (fun b => b.user_id == bill.user_id &&
          b.bill_year == bill.bill_year - 1) = none →
        m.yoy_consumption_change_percent = none ∧
        m.previous_year_consumption_kwh = none) ∧
      (∀ pb, db.bills.find? (fun b => b.user_id == bill.user_id &&
          b.bill_year == bill.bill_year - 1) = some pb →
        pb.consumption_kwh > 0 → bill.consumption_kwh ≠ pb.consumption_kwh →
        m.yoy_consumption_change_percent =
          some (round2 ((bill.consumption_kwh - pb.consumption_kwh) /
            pb.consumption_kwh * 100))) ∧
      (∀ pb, db.bills.find? (fun b => b.user_id == bill.user_id &&
          b.bill_year == bill.bill_year - 1) = some pb →
        ¬ pb.consumption_kwh > 0 →
        m.yoy_consumption_change_percent = none) ∧
      (∀ pb, db.bills.find? (fun b => b.user_id == bill.user_id &&
          b.bill_year == bill.bill_year - 1) = some pb →
        bill.consumption_kwh = pb.consumption_kwh →
        m.yoy_consumption_change_percent = none)) ∧
    round2 ((4500 - 3200 : ℚ) / 3200 * 100) = 2031/50 ∧
    |(2031/50 : ℚ) - 40625/1000| < 1/10 := by
  refine ⟨?_, ?_, by
    rw [show (2031/50 : ℚ) - 40625/1000 = -(1/200) by norm_num, abs_neg,
      abs_of_pos (by norm_num)]
    norm_num⟩
  · intro db bill_id bill m hfind hm
    simp only [calculate_for_bill, hfind] at hm
    rw [Option.some.injEq] at hm
    subst hm
    refine ⟨fun hp => by simp [hp], fun pb hp hpos hne => ?_, fun pb hp hpos => by simp [hp, hpos],
      fun pb hp hcp => ?_⟩
    · have hv : (bill.consumption_kwh - pb.consumption_kwh) / pb.consumption_kwh * 100 ≠ 0 :=
        mul_ne_zero (div_ne_zero (sub_ne_zero.mpr hne) (ne_of_gt hpos)) (by norm_num)
      simp [hp, hpos, hv]
    · by_cases hpp : pb.consumption_kwh > 0 <;> simp [hp, hcp, hpp]
  · rw [round2_def, roundTo_eq_half_even 2 _ 4062 (by norm_num) (by norm_num)]
    norm_num

/-- A store with a 2024 bill of 4500 kWh and a 2023 bill of 3200 kWh for
the same user. -/
def dbYoY : DB :=
  ⟨[⟨1, 1, 2024, 4500, 900, 0, 450, none⟩, ⟨2, 1, 2023, 3200, 700, 0, 365, none⟩],
   [], [], [], []⟩

/-- The metrics row `calculate_for_bill` computes for bill 1 of `dbYoY`. -/
def dbYoYMetrics : BillMetrics := ⟨1, 450, 10, 1/5, some (2031/50), some 3200⟩

/-- Witness for claim C6: the positive-change branch applied to the
4500-vs-3200 store. -/
theorem claim_C6_witness :
    (calculate_for_bill dbYoY 1).1 = some dbYoYMetrics ∧
    dbYoYMetrics.yoy_consumption_change_percent =
      some (round2 ((4500 - 3200 : ℚ) / 3200 * 100)) := by
  have h10 : round2 (10 : ℚ) = 10 := round2_eq_self_of_int 10 10 (by norm_num)
  have h02 : round4 ((1 : ℚ)/5) = 1/5 := by
    rw [round4_def, roundTo_eq_of_lt 4 _ 2000 (by norm_num) (by norm_num)]
    norm_num
  have h3200 : round2 ((3200 : ℚ)) = 3200 := round2_eq_self_of_int 3200 3200 (by norm_num)
  have hyoy : round2 ((325 : ℚ)/8) = 2031/50 := by
    rw [round2_def, roundTo_eq_half_even 2 _ 4062 (by norm_num) (by norm_num)]
    norm_num
  have h1 : (calculate_for_bill dbYoY 1).1 = some dbYoYMetrics := by
    simp +decide [calculate_for_bill, dbYoY, List.find?, dbYoYMetrics]
    norm_num [h10, h02, h3200, hyoy]
  refine ⟨h1, ?_⟩
  have := (claim_C6.1 dbYoY 1 ⟨1, 1, 2024, 4500, 900, 0, 450, none⟩ dbYoYMetrics
    (by simp [dbYoY, List.find?]) h1).2.1 ⟨2, 1, 2023, 3200, 700, 0, 365, none⟩
    (by simp [dbYoY, List.find?]) (by norm_num) (by norm_num)
  simpa using this

/-- A store whose 2024 and 2023 bills have the same consumption. -/
def dbEqualYoY : DB :=
  ⟨[⟨1, 1, 2024, 3000, 600, 0, 365, none⟩, ⟨2, 1, 2023, 3000, 600, 0, 365, none⟩],
   [], [], [], []⟩

/-- Counterexample to claim C6 as stated: a prior-year bill with equal
(positive) consumption exists, yet the stored percent change is `NULL`,
not 0. -/
theorem claim_C6_cex :
    ((calculate_for_bill dbEqualYoY 1).1.map (·.yoy_consumption_change_percent)) =
      some none ∧
    (dbEqualYoY.bills.find? fun b => b.user_id == 1 && b.bill_year == 2023) =
      some ⟨2, 1, 2023, 3000, 600, 0, 365, none⟩ ∧
    (3000 : ℚ) > 0 := by
  refine ⟨?_, by simp +decide [dbEqualYoY, List.find?], by norm_num⟩
  simp +decide [calculate_for_bill, dbEqualYoY, List.find?]

/-! ## Claim C9 — peer statistics -/

/-- Five single-cohort users (household size 2) with 2024 bills of
3200/3400/3600/3800/4000 kWh. -/
def dbPeer5 : DB :=
  ⟨[⟨1, 1, 2024, 3200, 640, 0, 365, none⟩, ⟨2, 2, 2024, 3400, 680, 0, 365, none⟩,
    ⟨3, 3, 2024, 3600, 720, 0, 365, none⟩, ⟨4, 4, 2024, 3800, 760, 0, 365, none⟩,
    ⟨5, 5, 2024, 4000, 800, 0, 365, none⟩],
   [],
   [⟨1, 2, none, "10115"⟩, ⟨2, 2, none, "10115"⟩, ⟨3, 2, none, "10115"⟩,
    ⟨4, 2, none, "10115"⟩, ⟨5, 2, none, "10115"⟩],
   [], []⟩

/-- Claim C9: fewer than 3 cohort bills give the `None` sentinel and leave
the store untouched; otherwise the stored 25th/75th percentiles are the
non-interpolated index selections `sorted[n // 4]` and `sorted[(n * 3) // 4]`
(as stored, rounded to two decimals), the mean is the arithmetic mean and
the standard deviation is the sample (n − 1) standard deviation; on
[3200, 3400, 3600, 3800, 4000] this yields 3400, 3800 and mean 3600 with
sample variance 100000. -/
theorem claim_C9 :
    (∀ sq db household_size property_type year,
      (cohort_bills db household_size property_type year).length < 3 →
      calculate_peer_statistics sq db household_size property_type year 3 = (none, db)) ∧
    (∀ sq db household_size property_type year stats,
      (calculate_peer_statistics sq db household_size property_type year 3).1 = some stats →
      stats.percentile_25_kwh =
        round2 ((((cohort_bills db household_size property_type year).map
          (·.consumption_kwh)).insertionSort (· ≤ ·)).getD
            ((((cohort_bills db household_size property_type year).map
              (·.consumption_kwh)).insertionSort (· ≤ ·)).length / 4) 0) ∧
      stats.percentile_75_kwh =
        round2 ((((cohort_bills db household_size property_type year).map
          (·.consumption_kwh)).insertionSort (· ≤ ·)).getD
            (((((cohort_bills db household_size property_type year).map
              (·.consumption_kwh)).insertionSort (· ≤ ·)).length * 3) / 4) 0) ∧
      stats.avg_consumption_kwh =
        round2 (listMean ((cohort_bills db household_size property_type year).map
          (·.consumption_kwh))) ∧
      stats.std_dev_consumption_kwh =
        round2 (sq (sampleVariance ((cohort_bills db household_size property_type year).map
          (·.consumption_kwh))))) ∧
    (∀ sq, (calculate_peer_statistics sq dbPeer5 2 none 2024 3).1 =
      some ⟨2, none, 2024, 5, 3600, round2 (sq 100000), 3600, 3400, 3800,
        some 720, some (1/5)⟩) := by
  refine ⟨?_, ?_, ?_⟩
  · intro sq db household_size property_type year h
    unfold calculate_peer_statistics
    rw [if_pos h]
  · intro sq db household_size property_type year stats h
    by_cases hlen : (cohort_bills db household_size property_type year).length < 3
    · exfalso
      unfold calculate_peer_statistics at h
      rw [if_pos hlen] at h
      simp at h
    · unfold calculate_peer_statistics at h
      rw [if_neg hlen] at h
      simp only [Option.some.injEq] at h
      have hgt : ((cohort_bills db household_size property_type year).map
          (·.consumption_kwh)).length > 1 := by
        rw [List.length_map]; omega
      rw [← h]
      refine ⟨rfl, rfl, rfl, ?_⟩
      simp only [if_pos hgt]
  · intro sq
    have h3600 : round2 (3600 : ℚ) = 3600 := round2_eq_self_of_int 3600 3600 (by norm_num)
    have h3400 : round2 (3400 : ℚ) = 3400 := round2_eq_self_of_int 3400 3400 (by norm_num)
    have h3800 : round2 (3800 : ℚ) = 3800 := round2_eq_self_of_int 3800 3800 (by norm_num)
    have h720 : round2 (720 : ℚ) = 720 := round2_eq_self_of_int 720 720 (by norm_num)
    have h15 : round4 ((1 : ℚ)/5) = 1/5 := by
      rw [round4_def, roundTo_eq_of_lt 4 _ 2000 (by norm_num) (by norm_num)]
      norm_num
    simp +decide [calculate_peer_statistics, cohort_bills, dbPeer5, listMean,
      sampleVariance, listMedian, List.insertionSort, List.orderedInsert]
    norm_num [h3600, h3400, h3800, h720, h15]

/-- Witness for claim C9: the insufficient-sample sentinel on the empty
store, and the index-formula characterization applied to the 5-bill
cohort. -/
theorem claim_C9_witness :
    calculate_peer_statistics (fun _ => 0) emptyDB 2 none 2024 3 = (none, emptyDB) ∧
    (3400 : ℚ) = round2 ((((cohort_bills dbPeer5 2 none 2024).map
        (·.consumption_kwh)).insertionSort (· ≤ ·)).getD
          ((((cohort_bills dbPeer5 2 none 2024).map
            (·.consumption_kwh)).insertionSort (· ≤ ·)).length / 4) 0) := by
  constructor
  · exact claim_C9.1 (fun _ => 0) emptyDB 2 none 2024 (by simp [cohort_bills, emptyDB])
  · exact (claim_C9.2.1 (fun _ => 0) dbPeer5 2 none 2024
      ⟨2, none, 2024, 5, 3600, round2 ((fun _ => (0 : ℚ)) 100000), 3600, 3400, 3800,
        some 720, some (1/5)⟩ (claim_C9.2.2 (fun _ => 0))).1

/-! ## Inversion of `detect_all_anomalies` (shared by several claims) -/

theorem detect_all_fields {o : FetchOracle} {db : DB} {bill_id : ℕ} {r : AllResult}
    {db1 : DB} (h : detect_all_anomalies o db bill_id = .ok (some r, db1)) :
    detect_historical_anomaly db bill_id = .ok r.historical ∧
    detect_peer_anomaly db bill_id = .ok r.peer ∧
    detect_predictive_anomaly o db bill_id = .ok (r.predictive, db1) ∧
    r.hist_score = (r.historical.map (·.score)).getD 0 ∧
    r.peer_score = (r.peer.map (·.score)).getD 0 ∧
    r.pred_score = (r.predictive.map (·.score)).getD 0 ∧
    r.combined_score =
      round2 (r.hist_score * (4/10) + r.peer_score * (3/10) + r.pred_score * (3/10)) ∧
    r.severity = (if r.combined_score < 4 then "normal"
      else if r.combined_score < 7 then "warning" else "critical") ∧
    (r.has_anomaly = true ↔ r.combined_score ≥ 4) ∧
    determine_primary_anomaly_type r.historical r.peer r.predictive =
      .ok r.primary_anomaly_type := by
  unfold detect_all_anomalies at h
  split at h
  · simp at h
  · split at h
    · simp at h
    · rename_i bill hbill hist hhist
      split at h
      · simp at h
      · rename_i peer hpeer
        split at h
        · simp at h
        · rename_i pred hpred
          split at h
          · simp at h
          · rename_i primary hprimary
            simp only [Except.ok.injEq, Prod.mk.injEq, Option.some.injEq] at h
            obtain ⟨hr, hdb⟩ := h
            subst hr
            subst hdb
            refine ⟨hhist, hpeer, hpred, rfl, rfl, rfl, rfl, rfl, ?_, hprimary⟩
            simp [decide_eq_true_iff]

/-! ## Claim C7 — missing-data sentinels -/

/-- Claim C7: with the bill present, each detector returns its score-0,
`has_anomaly = false`, reason-coded sentinel (rather than raising) when its
prerequisite is missing — no YoY metrics, no peer comparison data, no
previous-year bill, no weather adjustment — and `detect_all_anomalies`
combines three sentinels into a combined score of 0. -/
theorem claim_C7 :
    (∀ db bill_id bill, db.bills.find? (fun b => b.id == bill_id) = some bill →
      (db.metrics.find? (fun m => m.bill_id == bill_id)).bind
        (·.yoy_consumption_change_percent) = none →
      detect_historical_anomaly db bill_id = .ok (some histSentinel)) ∧
    (∀ db bill_id bill, db.bills.find? (fun b => b.id == bill_id) = some bill →
      compare_to_peers db bill.user_id bill.bill_year = .ok none →
      detect_peer_anomaly db bill_id = .ok (some peerSentinel)) ∧
    (∀ o db bill_id bill, db.bills.find? (fun b => b.id == bill_id) = some bill →
      db.bills.find? (fun b => b.user_id == bill.user_id &&
        b.bill_year == bill.bill_year - 1) = none →
      detect_predictive_anomaly o db bill_id = .ok (some baselineSentinel, db)) ∧
    (∀ o db bill_id bill previous_bill user,
      db.bills.find? (fun b => b.id == bill_id) = some bill →
      db.bills.find? (fun b => b.user_id == bill.user_id &&
        b.bill_year == bill.bill_year - 1) = some previous_bill →
      db.profiles.find? (fun p => p.user_id == bill.user_id) = some user →
      (get_expected_consumption_with_weather o db previous_bill.consumption_kwh
        user.postal_code previous_bill.bill_year bill.bill_year).1 = .ok none →
      detect_predictive_anomaly o db bill_id = .ok (some weatherSentinel,
        (get_expected_consumption_with_weather o db previous_bill.consumption_kwh
          user.postal_code previous_bill.bill_year bill.bill_year).2)) ∧
    (histSentinel.has_anomaly = false ∧ histSentinel.score = 0 ∧
      histSentinel.reason = some "no_historical_data") ∧
    (peerSentinel.has_anomaly = false ∧ peerSentinel.score = 0 ∧
      peerSentinel.reason = some "no_peer_data") ∧
    (baselineSentinel.has_anomaly = false ∧ baselineSentinel.score = 0 ∧
      baselineSentinel.reason = some "no_baseline_data") ∧
    (weatherSentinel.has_anomaly = false ∧ weatherSentinel.score = 0 ∧
      weatherSentinel.reason = some "no_weather_data") ∧
    (∀ o db bill_id r db1, detect_all_anomalies o db bill_id = .ok (some r, db1) →
      r.historical = some histSentinel → r.peer = some peerSentinel →
      r.predictive = some baselineSentinel →
      r.combined_score = 0 ∧ r.has_anomaly = false ∧ r.severity = "normal") := by
  refine ⟨?_, ?_, ?_, ?_, ⟨rfl, rfl, rfl⟩, ⟨rfl, rfl, rfl⟩, ⟨rfl, rfl, rfl⟩,
    ⟨rfl, rfl, rfl⟩, ?_⟩
  · intro db bill_id bill hfind hmetrics
    unfold detect_historical_anomaly
    rcases hm : db.metrics.find? (fun m => m.bill_id == bill_id) with _ | metrics
    · simp only [hfind, hm]
    · rw [hm] at hmetrics
      simp only [Option.bind] at hmetrics
      simp only [hfind, hm, hmetrics]
  · intro db bill_id bill hfind hcomp
    unfold detect_peer_anomaly
    simp only [hfind, hcomp]
  · intro o db bill_id bill hfind hprev
    unfold detect_predictive_anomaly
    simp only [hfind, hprev]
  · intro o db bill_id bill previous_bill user hfind hprev huser hexp
    rcases hE : get_expected_consumption_with_weather o db previous_bill.consumption_kwh
        user.postal_code previous_bill.bill_year bill.bill_year with ⟨res, db2⟩
    rw [hE] at hexp
    dsimp only at hexp
    subst hexp
    unfold detect_predictive_anomaly
    simp only [hfind, hprev, huser, hE]
  · intro o db bill_id r db1 h hh hp hpr
    obtain ⟨-, -, -, h1, h2, h3, h4, h5, h6, -⟩ := detect_all_fields h
    rw [hh] at h1
    rw [hp] at h2
    rw [hpr] at h3
    simp only [histSentinel, peerSentinel, baselineSentinel, Option.map_some,
      Option.getD_some] at h1 h2 h3
    have hc : r.combined_score = 0 := by
      rw [h4, h1, h2, h3]
      norm_num
      exact round2_zero
    refine ⟨hc, ?_, ?_⟩
    · have := h6
      rw [hc] at this
      by_cases hb : r.has_anomaly = true
      · exfalso
        have := this.mp hb
        norm_num at this
      · simpa using hb
    · rw [h5, hc]
      norm_num

/-- A store holding one bill with no metrics, no profile and no prior-year
bill: every detector prerequisite is missing. -/
def dbLoneBill : DB := ⟨[⟨1, 1, 2024, 3000, 600, 0, 365, none⟩], [], [], [], []⟩

/-- The combined result for `dbLoneBill`: three sentinels, score 0. -/
def loneBillResult : AllResult :=
  ⟨1, 1, 2024, false, "normal", 0, "normal", 0, 0, 0,
   some histSentinel, some peerSentinel, some baselineSentinel, none⟩

/-- Witness for claim C7: all four sentinel branches and the all-sentinel
combination, at a concrete store. -/
theorem claim_C7_witness :
    detect_historical_anomaly dbLoneBill 1 = .ok (some histSentinel) ∧
    detect_peer_anomaly dbLoneBill 1 = .ok (some peerSentinel) ∧
    detect_predictive_anomaly oracleAlwaysFetch dbLoneBill 1 =
      .ok (some baselineSentinel, dbLoneBill) ∧
    loneBillResult.combined_score = 0 ∧ loneBillResult.has_anomaly = false ∧
    loneBillResult.severity = "normal" := by
  have hfind : dbLoneBill.bills.find? (fun b => b.id == 1) =
      some ⟨1, 1, 2024, 3000, 600, 0, 365, none⟩ := by
    simp [dbLoneBill, List.find?]
  have h1 := claim_C7.1 dbLoneBill 1 _ hfind (by simp [dbLoneBill])
  have h2 := claim_C7.2.1 dbLoneBill 1 _ hfind
    (by simp [compare_to_peers, dbLoneBill, List.find?])
  have h3 := claim_C7.2.2.1 oracleAlwaysFetch dbLoneBill 1 _ hfind
    (by simp +decide [dbLoneBill, List.find?])
  have hall : detect_all_anomalies oracleAlwaysFetch dbLoneBill 1 =
      .ok (some loneBillResult, dbLoneBill) := by
    unfold detect_all_anomalies
    rw [hfind, h1, h2, h3]
    norm_num [determine_primary_anomaly_type, maxByScore, histSentinel, peerSentinel,
      baselineSentinel, calculate_financial_impact, loneBillResult, round2_zero]
  have he := claim_C7.2.2.2.2.2.2.2.2 oracleAlwaysFetch dbLoneBill 1 loneBillResult
    dbLoneBill hall rfl rfl rfl
  exact ⟨h1, h2, h3, he.1, he.2.1, he.2.2⟩

/-! ## Claim C1 — the combined score -/

/-- A store whose only bill has stored YoY metrics of 0.05 % (historical
score 0.01) and no peer or predictive prerequisites. -/
def dbTinyYoY : DB :=
  ⟨[⟨1, 1, 2024, 5000, 100, 0, 365, none⟩],
   [⟨1, 365, 137/10, 1/50, some (1/20), some 100⟩], [], [], []⟩

/-- The historical result for `dbTinyYoY`. -/
def tinyHist : HistResult :=
  ⟨false, 1/100, none, some "normal", some (1/20), some 5000, some 100⟩

/-- The combined result for `dbTinyYoY`: the exact weighted sum is 1/250,
but the returned combined score is its two-decimal rounding 0. -/
def tinyAll : AllResult :=
  ⟨1, 1, 2024, false, "normal", 0, "normal", 1/100, 0, 0,
   some tinyHist, some peerSentinel, some baselineSentinel, none⟩

theorem detect_all_dbTinyYoY :
    detect_all_anomalies oracleAlwaysFetch dbTinyYoY 1 = .ok (some tinyAll, dbTinyYoY) := by
  have hfind : dbTinyYoY.bills.find? (fun b => b.id == 1) =
      some ⟨1, 1, 2024, 5000, 100, 0, 365, none⟩ := by
    simp [dbTinyYoY, List.find?]
  have hs : calculate_historical_score (1/20) = 1/100 := by
    rw [calculate_historical_score_eq, show histScoreSpec (1/20) = 1/100 by
      unfold histScoreSpec
      dsimp only
      rw [abs_of_pos (by norm_num), if_pos (by norm_num)]
      norm_num]
    rw [round2_def, roundTo_eq_of_lt 2 _ 1 (by norm_num) (by norm_num)]
    norm_num
  have hcl : classify_historical_anomaly (1/20) = "normal" := by
    unfold classify_historical_anomaly
    rw [if_pos (by rw [abs_of_pos (by norm_num)]; norm_num)]
  have hd : decide ((1/100 : ℚ) ≥ 5) = false := decide_eq_false (by norm_num)
  have hhist : detect_historical_anomaly dbTinyYoY 1 = .ok (some tinyHist) := by
    unfold detect_historical_anomaly
    rw [hfind, show dbTinyYoY.metrics.find? (fun m => m.bill_id == 1) =
      some ⟨1, 365, 137/10, 1/50, some (1/20), some 100⟩ from by simp [dbTinyYoY, List.find?]]
    dsimp only
    rw [hs, hcl, hd]
    rfl
  have hpeer : detect_peer_anomaly dbTinyYoY 1 = .ok (some peerSentinel) := by
    unfold detect_peer_anomaly
    rw [hfind]
    simp [compare_to_peers, dbTinyYoY, List.find?]
  have hpred : detect_predictive_anomaly oracleAlwaysFetch dbTinyYoY 1 =
      .ok (some baselineSentinel, dbTinyYoY) := by
    unfold detect_predictive_anomaly
    rw [hfind]
    simp +decide [dbTinyYoY, List.find?]
  have hc : round2 ((1/250 : ℚ)) = 0 := by
    rw [round2_def, roundTo_eq_of_lt 2 _ 0 (by norm_num) (by norm_num)]
    norm_num
  unfold detect_all_anomalies
  rw [hfind, hhist, hpeer, hpred]
  norm_num [determine_primary_anomaly_type, maxByScore, tinyHist, peerSentinel,
    baselineSentinel, calculate_financial_impact, tinyAll, hc]

/-- Claim C1, amended: the combined score is the weighted sum
0.4·historical + 0.3·peer + 0.3·predictive (each score defaulting to 0 for
a detector's `None`), **rounded to two decimals**; severity is
normal/warning/critical by the <4 / <7 cut-offs on that rounded value, and
`has_anomaly` holds iff it is at least 4; detector scores (8, 5, 3) give
exactly 5.6, severity warning. -/
theorem claim_C1 :
    (∀ o db bill_id r db1, detect_all_anomalies o db bill_id = .ok (some r, db1) →
      r.hist_score = (r.historical.map (·.score)).getD 0 ∧
      r.peer_score = (r.peer.map (·.score)).getD 0 ∧
      r.pred_score = (r.predictive.map (·.score)).getD 0 ∧
      r.combined_score =
        round2 (r.hist_score * (4/10) + r.peer_score * (3/10) + r.pred_score * (3/10)) ∧
      r.severity = (if r.combined_score < 4 then "normal"
        else if r.combined_score < 7 then "warning" else "critical") ∧
      (r.has_anomaly = true ↔ r.combined_score ≥ 4)) ∧
    round2 ((8 : ℚ) * (4/10) + 5 * (3/10) + 3 * (3/10)) = 28/5 ∧
    (if (28/5 : ℚ) < 4 then "normal"
      else if (28/5 : ℚ) < 7 then "warning" else "critical") = "warning" := by
  refine ⟨?_, ?_, ?_⟩
  · intro o db bill_id r db1 h
    obtain ⟨-, -, -, h4, h5, h6, h7, h8, h9, -⟩ := detect_all_fields h
    exact ⟨h4, h5, h6, h7, h8, h9⟩
  · rw [show ((8 : ℚ) * (4/10) + 5 * (3/10) + 3 * (3/10)) = 28/5 by norm_num,
      round2_def, roundTo_eq_of_lt 2 _ 560 (by norm_num) (by norm_num)]
    norm_num
  · norm_num

/-- Witness for claim C1: the characterization applied to the concrete
`dbTinyYoY` detection run. -/
theorem claim_C1_witness :
    tinyAll.combined_score =
      round2 (tinyAll.hist_score * (4/10) + tinyAll.peer_score * (3/10) +
        tinyAll.pred_score * (3/10)) ∧
    tinyAll.severity = (if tinyAll.combined_score < 4 then "normal"
      else if tinyAll.combined_score < 7 then "warning" else "critical") ∧
    (tinyAll.has_anomaly = true ↔ tinyAll.combined_score ≥ 4) := by
  have h := (claim_C1.1 oracleAlwaysFetch dbTinyYoY 1 tinyAll dbTinyYoY detect_all_dbTinyYoY)
  exact ⟨h.2.2.2.1, h.2.2.2.2.1, h.2.2.2.2.2⟩

/-- Counterexample to claim C1 as stated: on `dbTinyYoY` the detector
scores are (0.01, 0, 0), whose exact weighted sum is 1/250, but the
returned combined score is 0. -/
theorem claim_C1_cex :
    detect_all_anomalies oracleAlwaysFetch dbTinyYoY 1 = .ok (some tinyAll, dbTinyYoY) ∧
    tinyAll.hist_score = 1/100 ∧ tinyAll.peer_score = 0 ∧ tinyAll.pred_score = 0 ∧
    tinyAll.hist_score * (4/10) + tinyAll.peer_score * (3/10) +
      tinyAll.pred_score * (3/10) = 1/250 ∧
    tinyAll.combined_score = 0 ∧ (0 : ℚ) ≠ 1/250 := by
  refine ⟨detect_all_dbTinyYoY, rfl, rfl, rfl, by norm_num [tinyAll], rfl, by norm_num⟩

/-! ## Claim C2 — the primary anomaly type -/

/-- A store whose only bill has a stored YoY change of 16 % (historical
score 4.2, type `moderate_increase`, `has_anomaly = false`) and no peer or
predictive data. -/
def dbModerate : DB :=
  ⟨[⟨1, 1, 2024, 5000, 100, 0, 365, none⟩],
   [⟨1, 365, 137/10, 1/50, some 16, some 3000⟩], [], [], []⟩

/-- The historical result for `dbModerate`. -/
def moderateHist : HistResult :=
  ⟨false, 21/5, none, some "moderate_increase", some 16, some 5000, some 3000⟩

/-- The combined result for `dbModerate`: the highest detector score is 4.2
(historical, type `moderate_increase`), yet the primary type is `normal`. -/
def moderateAll : AllResult :=
  ⟨1, 1, 2024, false, "normal", 42/25, "normal", 21/5, 0, 0,
   some moderateHist, some peerSentinel, some baselineSentinel, none⟩

theorem detect_all_dbModerate :
    detect_all_anomalies oracleAlwaysFetch dbModerate 1 = .ok (some moderateAll, dbModerate) := by
  have hfind : dbModerate.bills.find? (fun b => b.id == 1) =
      some ⟨1, 1, 2024, 5000, 100, 0, 365, none⟩ := by
    simp [dbModerate, List.find?]
  have hs : calculate_historical_score 16 = 21/5 := by
    rw [calculate_historical_score_eq, show histScoreSpec 16 = 21/5 by
      unfold histScoreSpec
      dsimp only
      rw [abs_of_pos (by norm_num), if_neg (by norm_num), if_pos (by norm_num)]
      norm_num]
    rw [round2_def, roundTo_eq_of_lt 2 _ 420 (by norm_num) (by norm_num)]
    norm_num
  have hcl : classify_historical_anomaly 16 = "moderate_increase" := by
    unfold classify_historical_anomaly
    rw [if_neg (by rw [abs_of_pos (by norm_num)]; norm_num), if_neg (by norm_num),
      if_neg (by norm_num), if_pos (by norm_num)]
  have hd : decide ((21/5 : ℚ) ≥ 5) = false := decide_eq_false (by norm_num)
  have hhist : detect_historical_anomaly dbModerate 1 = .ok (some moderateHist) := by
    unfold detect_historical_anomaly
    rw [hfind, show dbModerate.metrics.find? (fun m => m.bill_id == 1) =
      some ⟨1, 365, 137/10, 1/50, some 16, some 3000⟩ from by simp [dbModerate, List.find?]]
    dsimp only
    rw [hs, hcl, hd]
    rfl
  have hpeer : detect_peer_anomaly dbModerate 1 = .ok (some peerSentinel) := by
    unfold detect_peer_anomaly
    rw [hfind]
    simp [compare_to_peers, dbModerate, List.find?]
  have hpred : detect_predictive_anomaly oracleAlwaysFetch dbModerate 1 =
      .ok (some baselineSentinel, dbModerate) := by
    unfold detect_predictive_anomaly
    rw [hfind]
    simp +decide [dbModerate, List.find?]
  have hc : round2 ((42/25 : ℚ)) = 42/25 := by
    rw [round2_def, roundTo_eq_of_lt 2 _ 168 (by norm_num) (by norm_num)]
    norm_num
  unfold detect_all_anomalies
  rw [hfind, hhist, hpeer, hpred]
  norm_num [determine_primary_anomaly_type, maxByScore, moderateHist, peerSentinel,
    baselineSentinel, calculate_financial_impact, moderateAll, hc]

/-- Claim C2, amended: the primary type is the type of the detector with
the single highest score when that maximum is at least 4 (ties broken
historical, peer, predictive), else `normal` — **except** that the
historical detector's type counts as `normal` unless its own `has_anomaly`
flag is set (score ≥ 5); the peer and predictive types are used regardless
of their `has_anomaly` flags. -/
theorem claim_C2 :
    (∀ (hr : HistResult) (pp : PeerResult) (pd : PredResult) (t1 : String),
      (hr.has_anomaly = true → hr.anomaly_type = some t1) →
      (hr.has_anomaly = false → t1 = "normal") →
      determine_primary_anomaly_type (some hr) (some pp) (some pd) =
        .ok (if (maxByScore (hr.score, t1)
            [(pp.score, pp.anomaly_type.getD "normal"),
             (pd.score, pd.anomaly_type.getD "normal")]).1 ≥ 4
          then (maxByScore (hr.score, t1)
            [(pp.score, pp.anomaly_type.getD "normal"),
             (pd.score, pd.anomaly_type.getD "normal")]).2
          else "normal")) ∧
    (∀ o db bill_id r db1, detect_all_anomalies o db bill_id = .ok (some r, db1) →
      determine_primary_anomaly_type r.historical r.peer r.predictive =
        .ok r.primary_anomaly_type) := by
  constructor
  · intro hr pp pd t1 h1 h2
    unfold determine_primary_anomaly_type
    dsimp only
    cases hb : hr.has_anomaly
    · have ht := h2 hb
      subst ht
      simp [hb]
    · have ht := h1 hb
      simp [hb, ht]
  · intro o db bill_id r db1 h
    exact (detect_all_fields h).2.2.2.2.2.2.2.2.2

/-- Witness for claim C2: its characterization applied to `moderateHist`
(whose `has_anomaly` is false, so its type contributes as `normal`) and the
`dbModerate` detection run. -/
theorem claim_C2_witness :
    determine_primary_anomaly_type (some moderateHist) (some peerSentinel)
      (some baselineSentinel) =
      .ok (if (maxByScore (moderateHist.score, "normal")
          [(peerSentinel.score, peerSentinel.anomaly_type.getD "normal"),
           (baselineSentinel.score, baselineSentinel.anomaly_type.getD "normal")]).1 ≥ 4
        then (maxByScore (moderateHist.score, "normal")
          [(peerSentinel.score, peerSentinel.anomaly_type.getD "normal"),
           (baselineSentinel.score, baselineSentinel.anomaly_type.getD "normal")]).2
        else "normal") ∧
    determine_primary_anomaly_type moderateAll.historical moderateAll.peer
      moderateAll.predictive = .ok moderateAll.primary_anomaly_type :=
  ⟨claim_C2.1 moderateHist peerSentinel baselineSentinel "normal"
      (by intro hb; exact absurd hb (by simp [moderateHist])) (fun _ => rfl),
   claim_C2.2 oracleAlwaysFetch dbModerate 1 moderateAll dbModerate detect_all_dbModerate⟩

/-- Counterexample to claim C2 as stated: on `dbModerate` the single
highest detector score is the historical 4.2 ≥ 4 with anomaly type
`moderate_increase`, yet the reported primary type is `normal`, because the
historical type is masked by its unset `has_anomaly` flag. -/
theorem claim_C2_cex :
    detect_all_anomalies oracleAlwaysFetch dbModerate 1 = .ok (some moderateAll, dbModerate) ∧
    moderateAll.hist_score = 21/5 ∧ moderateAll.peer_score = 0 ∧
    moderateAll.pred_score = 0 ∧ (21/5 : ℚ) ≥ 4 ∧ (0 : ℚ) < 21/5 ∧
    (moderateAll.historical.map (·.anomaly_type)) = some (some "moderate_increase") ∧
    moderateAll.primary_anomaly_type = "normal" ∧
    "normal" ≠ "moderate_increase" := by
  refine ⟨detect_all_dbModerate, rfl, rfl, rfl, by norm_num, by norm_num, rfl, rfl, by decide⟩

end StromSense
